import Mathlib

/-!
Shallow embedding of the `cubejs` Python client (src/cubejs/errors.py,
src/cubejs/model.py, src/cubejs/client.py) and proofs of the spec's claims
about it.
-/

namespace CubeJS

/-! ## Errors (src/cubejs/errors.py)

Each Python exception class becomes a constructor.  The classes that take a
`message` argument in `__init__` carry it; `ContinueWaitError` and
`BadGatewayError` take none.  `RetryableError` is the common superclass of
`continueWait` and `badGateway`, embedded as the `isRetryable` predicate.
The `validation` constructor stands for the pydantic `ValidationError`
raised when `CubeJSResponse(**response.json())` rejects the payload. -/

inductive ClientError where
  | server (message : String)
  | authorization (message : String)
  | request (message : String)
  | unexpectedResponse (message : String)
  | continueWait
  | badGateway
  | validation (message : String)
deriving DecidableEq

/-- `isinstance(e, RetryableError)`: exactly the two retryable subclasses. -/
def ClientError.isRetryable : ClientError → Bool
  | .continueWait => true
  | .badGateway => true
  | _ => false

/-- The `message` attribute stored by `__init__` (the errors that carry the
response body text); `none` for the message-less retryable errors and for
validation failures, whose message is not a response body. -/
def ClientError.message : ClientError → Option String
  | .server m => some m
  | .authorization m => some m
  | .request m => some m
  | .unexpectedResponse m => some m
  | _ => none

/-! ## Substring check

Python's `"Continue wait" in response.text` is contiguous-substring
containment, embedded over character lists. -/

/-- `containsSub pat l` is true iff `pat` occurs contiguously inside `l`. -/
def containsSub (pat : List Char) : List Char → Bool
  | [] => pat.isEmpty
  | c :: rest => pat.isPrefixOf (c :: rest) || containsSub pat rest

/-- `"Continue wait" in s` from `_error_handler`. -/
def containsContinueWait (s : String) : Bool :=
  containsSub "Continue wait".toList s.toList

/-! ## Classifier (`_error_handler` in src/cubejs/client.py)

The Python function raises on the first matching check and falls through
(returns `None`) on a 200 response with no "Continue wait" body; here it
returns `some e` for a raise and `none` for fall-through. -/

def errorHandler (status : Nat) (text : String) : Option ClientError :=
  if status = 403 then some (.authorization text)
  else if status = 400 then some (.request text)
  else if containsContinueWait text then some .continueWait
  else if status = 502 then some .badGateway
  else if status = 500 then some (.server text)
  else if status ≠ 200 then some (.unexpectedResponse text)
  else none

/-! ## Data model (src/cubejs/model.py) -/

/-- `Granularity(str, Enum)` from model.py. -/
inductive Granularity where
  | year | quarter | month | week | day | hour | minute | second
deriving DecidableEq

/-- The string wire value of each `Granularity` member. -/
def Granularity.value : Granularity → String
  | .year => "year"
  | .quarter => "quarter"
  | .month => "month"
  | .week => "week"
  | .day => "day"
  | .hour => "hour"
  | .minute => "minute"
  | .second => "second"

/-- `OrderBy(str, Enum)` from model.py. -/
inductive OrderBy where
  | asc | desc
deriving DecidableEq

/-- The string wire value of each `OrderBy` member. -/
def OrderBy.value : OrderBy → String
  | .asc => "asc"
  | .desc => "desc"

/-- One arm of the union `list[str] | str` used by `date_range` and by the
entries of `compare_date_range`. -/
inductive DateEntry where
  | dates (ds : List String)
  | phrase (s : String)
deriving DecidableEq

/-- `TimeDimension` fields (validation is `TimeDimension.construct` below). -/
structure TimeDimension where
  dimension : String
  granularity : Option Granularity := none
  date_range : Option DateEntry := none
  compare_date_range : Option (List DateEntry) := none
deriving DecidableEq

/-- The `for date_range in self.compare_date_range` loop of
`validate_date_ranges`: raises on the first list entry whose length is
not 2, skips phrase strings. -/
def checkCompareEntries : List DateEntry → Except String Unit
  | [] => .ok ()
  | .dates ds :: rest =>
    if ds.length ≠ 2 then
      .error "Each compare_date_range entry must contain exactly 2 dates when provided"
    else checkCompareEntries rest
  | .phrase _ :: rest => checkCompareEntries rest

/-- `TimeDimension.validate_date_ranges` (a pydantic `model_validator` run
after field assignment): rejects setting both date ranges, then checks
every list-form `compare_date_range` entry has exactly 2 dates. -/
def TimeDimension.validate_date_ranges (td : TimeDimension) : Except String TimeDimension :=
  if td.date_range.isSome && td.compare_date_range.isSome then
    .error "Cannot provide both date_range and compare_date_range"
  else
    match td.compare_date_range with
    | some entries => (checkCompareEntries entries).map fun _ => td
    | none => .ok td

/-- Constructing a `TimeDimension(...)`: pydantic assigns the fields and
then runs the model validator. -/
def TimeDimension.construct (dimension : String) (granularity : Option Granularity)
    (date_range : Option DateEntry) (compare_date_range : Option (List DateEntry)) :
    Except String TimeDimension :=
  TimeDimension.validate_date_ranges
    ⟨dimension, granularity, date_range, compare_date_range⟩

/-! ## Wire values

A JSON-like tree for the serialized payload and the parsed response body.
Python's `json` module distinguishes ints from floats, so the embedding
keeps two numeric constructors; floats are carried as exact rationals
(every JSON decimal literal is one), and no claim computes with them. -/

inductive Json where
  | null
  | bool (b : Bool)
  | int (n : Int)
  | float (q : ℚ)
  | str (s : String)
  | arr (elements : List Json)
  | obj (fields : List (String × Json))

/-- Key lookup in a JSON object (`none` on non-objects). -/
def Json.getKey : Json → String → Option Json
  | .obj fields, k => fields.lookup k
  | _, _ => none

/-- The keys of a JSON object, in order (`[]` on non-objects). -/
def Json.objKeys : Json → List String
  | .obj fields => fields.map Prod.fst
  | _ => []

/-- pydantic `model_dump(..., exclude_none=True)` for one optional field:
a `None` value produces no key at all. -/
def optField (key : String) : Option Json → List (String × Json)
  | some j => [(key, j)]
  | none => []

/-- Serialization of the `list[str] | str` union. -/
def DateEntry.toJson : DateEntry → Json
  | .dates ds => .arr (ds.map .str)
  | .phrase s => .str s

/-- `TimeDimension.model_dump(by_alias=True, exclude_none=True)`: fields in
declaration order; `date_range`/`compare_date_range` under their
`serialization_alias`; enum granularity as its string value; `None`
fields omitted. -/
def TimeDimension.dump (td : TimeDimension) : Json :=
  .obj ([("dimension", .str td.dimension)]
    ++ optField "granularity" (td.granularity.map fun g => .str g.value)
    ++ optField "dateRange" (td.date_range.map DateEntry.toJson)
    ++ optField "compareDateRange"
        (td.compare_date_range.map fun l => .arr (l.map DateEntry.toJson)))

/-- `Filter` from model.py: `operator` is a plain string (enum members pass
through as their string value). -/
structure Filter where
  member : String
  operator : String
  values : Option (List String) := none
deriving DecidableEq

/-- `Filter.model_dump(by_alias=True, exclude_none=True)`. -/
def Filter.dump (f : Filter) : Json :=
  .obj ([("member", .str f.member), ("operator", .str f.operator)]
    ++ optField "values" (f.values.map fun vs => .arr (vs.map .str)))

/-- The recursive union `FilterOrLogical = Filter | LogicalOperator`; a
`LogicalOperator` holds optional `or_`/`and_` child lists. -/
inductive FilterOrLogical where
  | leaf (f : Filter)
  | logical (or_ : Option (List FilterOrLogical)) (and_ : Option (List FilterOrLogical))

mutual

/-- `model_dump(by_alias=True, exclude_none=True)` on the union: a leaf
dumps its Filter; a `LogicalOperator` dumps `or_`/`and_` under the
aliases "or"/"and", omitting `None` sides. -/
def FilterOrLogical.dump : FilterOrLogical → Json
  | .leaf f => Filter.dump f
  | .logical o a => .obj (dumpLogicalField "or" o ++ dumpLogicalField "and" a)

/-- One optional child list of a `LogicalOperator`. -/
def dumpLogicalField (key : String) : Option (List FilterOrLogical) → List (String × Json)
  | none => []
  | some children => [(key, .arr (dumpFilterList children))]

/-- Dump of a list of `FilterOrLogical` values. -/
def dumpFilterList : List FilterOrLogical → List Json
  | [] => []
  | x :: xs => FilterOrLogical.dump x :: dumpFilterList xs

end

/-- `CubeJSRequest` from model.py.  `measures` and `filters` default to
empty lists (`default_factory=list`); the rest default to `None`.  The
`order` dict is an insertion-ordered association list. -/
structure CubeJSRequest where
  measures : List String := []
  time_dimensions : Option (List TimeDimension) := none
  dimensions : Option (List String) := none
  segments : Option (List String) := none
  filters : List FilterOrLogical := []
  order : Option (List (String × OrderBy)) := none
  limit : Option Int := none
  offset : Option Int := none

/-- `request.model_dump(by_alias=True, exclude_none=True)` from
`get_measures`: fields in declaration order, `time_dimensions` under its
alias `timeDimensions`, `None` fields omitted, enums as strings. -/
def CubeJSRequest.dump (r : CubeJSRequest) : Json :=
  .obj ([("measures", .arr (r.measures.map .str))]
    ++ optField "timeDimensions"
        (r.time_dimensions.map fun l => .arr (l.map TimeDimension.dump))
    ++ optField "dimensions" (r.dimensions.map fun l => .arr (l.map .str))
    ++ optField "segments" (r.segments.map fun l => .arr (l.map .str))
    ++ [("filters", .arr (dumpFilterList r.filters))]
    ++ optField "order"
        (r.order.map fun o => .obj (o.map fun p => (p.1, Json.str p.2.value)))
    ++ optField "limit" (r.limit.map .int)
    ++ optField "offset" (r.offset.map .int))

/-- `CubeJSRequest()` with every field left at its default. -/
def emptyRequest : CubeJSRequest := {}

/-! ## Response model and transport (src/cubejs/model.py, client.py) -/

/-- One row cell of `CubeJSResponse.data`: `str | int | float | None`. -/
inductive CellValue where
  | str (s : String)
  | int (n : Int)
  | float (q : ℚ)
  | null
deriving DecidableEq

/-- `CubeJSResponse`: a list of rows, each a mapping from column name to a
cell value, kept in wire order. -/
structure CubeJSResponse where
  data : List (List (String × CellValue))
deriving DecidableEq

/-- pydantic validation of one cell against `str | int | float | None`:
strings, ints, floats and null pass through unchanged, anything else is
rejected. -/
def CellValue.fromJson : Json → Except String CellValue
  | .str s => .ok (.str s)
  | .int n => .ok (.int n)
  | .float q => .ok (.float q)
  | .null => .ok .null
  | _ => .error "Input should be a valid string, integer, number or null"

/-- pydantic validation of one row: a JSON object whose values are cells. -/
def rowFromJson : Json → Except String (List (String × CellValue))
  | .obj fields => fields.mapM fun p => (CellValue.fromJson p.2).map fun c => (p.1, c)
  | _ => .error "Input should be a valid dictionary"

/-- `CubeJSResponse(**response.json())`: requires a JSON object whose
"data" key holds an array of row objects; any other shape raises a
pydantic `ValidationError`. -/
def CubeJSResponse.fromJson : Json → Except String CubeJSResponse
  | .obj fields =>
    match fields.lookup "data" with
    | some (.arr rows) => (rows.mapM rowFromJson).map fun d => ⟨d⟩
    | some _ => .error "Input should be a valid list"
    | none => .error "Field required"
  | _ => .error "Input should be a valid dictionary"

/-- One HTTP exchange as the client observes it: `response.status_code`,
`response.text`, and `response.json()` (`none` when the body is not
valid JSON, where `.json()` would raise). -/
structure HttpResponse where
  status : Nat
  text : String
  json : Option Json

/-- One un-retried `get_measures` attempt: run `_error_handler` on the
response, then parse the body into `CubeJSResponse`; a parse failure is
a (non-retryable) validation error. -/
def attemptOnce (resp : HttpResponse) : Except ClientError CubeJSResponse :=
  match errorHandler resp.status resp.text with
  | some e => .error e
  | none =>
    match resp.json with
    | none => .error (.validation "response body is not valid JSON")
    | some j =>
      match CubeJSResponse.fromJson j with
      | .ok r => .ok r
      | .error m => .error (.validation m)

/-- `stop_after_attempt(5)` from the `tenacity.retry` decorator on
`get_measures`: 1 initial attempt plus up to 4 retries. -/
def maxAttempts : Nat := 5

/-- Modelled from the spec: the retry loop itself lives in the external
`tenacity` dependency, not under src/.  §4.3: sequential attempts, a
retry only when the raised error is retryable and attempts remain, and
on exhaustion the last retryable error propagates unchanged.
`retriesLeft` counts the attempts still allowed after the current one;
the result is paired with the number of transport calls made. -/
def retryGo (transport : Nat → HttpResponse) (i retriesLeft : Nat) :
    Except ClientError CubeJSResponse × Nat :=
  match attemptOnce (transport i), retriesLeft with
  | .ok r, _ => (.ok r, 1)
  | .error e, 0 => (.error e, 1)
  | .error e, rem + 1 =>
    if e.isRetryable then
      let next := retryGo transport (i + 1) rem
      (next.1, next.2 + 1)
    else (.error e, 1)

/-- The retry-wrapped fetch: the final outcome plus the total number of
transport calls made. -/
def retryFetch (transport : Nat → HttpResponse) :
    Except ClientError CubeJSResponse × Nat :=
  retryGo transport 0 (maxAttempts - 1)

/-- Modelled from the spec: `tenacity.wait_exponential(multiplier=2, min=1,
max=30)` is external to src/; §4.3 reads the schedule as exponential
with multiplier 2 starting at 1 second, each wait clamped to [1, 30]
seconds.  `backoffWait n` is the wait in seconds before retry `n`
(`n = 1` is the wait after the first failed attempt). -/
def backoffWait (n : Nat) : Nat := max 1 (min (2 ^ (n - 1)) 30)

/-- The status-200 success body used by the spec's parse example, as text:
`{"data": [{"a.b": "2023-01-01", "a.c": 42}]}`. -/
def successBody : String :=
  "\x7b\"data\": [\x7b\"a.b\": \"2023-01-01\", \"a.c\": 42\x7d]\x7d"

/-- The same body parsed as JSON. -/
def successJson : Json :=
  .obj [("data", .arr [.obj [("a.b", .str "2023-01-01"), ("a.c", .int 42)]])]

/-- The row the client is expected to produce from `successJson`. -/
def successRow : List (String × CellValue) :=
  [("a.b", .str "2023-01-01"), ("a.c", .int 42)]

/-- A mocked transport: status 502 with body "x" on the first 4 calls, then
the valid success response. -/
def mockTransport (i : Nat) : HttpResponse :=
  if i < 4 then ⟨502, "x", none⟩ else ⟨200, successBody, some successJson⟩

end CubeJS

namespace CubeJS

/-- Helper: `checkCompareEntries` errors exactly when some entry is a list
of length ≠ 2. -/
theorem checkCompareEntries_error_iff (l : List DateEntry) :
    (∃ msg, checkCompareEntries l = .error msg)
    ↔ ∃ e ∈ l, ∃ ds, e = DateEntry.dates ds ∧ ds.length ≠ 2 := by
  induction l with
  | nil => simp [checkCompareEntries]
  | cons e rest ih =>
    cases e with
    | dates ds =>
      by_cases h : ds.length = 2
      · simp [checkCompareEntries, h, ih]
      · refine ⟨fun _ => ⟨.dates ds, by simp, ds, rfl, h⟩, fun _ => ?_⟩
        simp [checkCompareEntries, h]
    | phrase s => simp [checkCompareEntries, ih]

/-- Claim C2: TimeDimension construction fails validation iff both
date_range and compare_date_range are set, or compare_date_range has a
list entry whose length is not 2; every other combination constructs
successfully, keeping the given fields. -/
theorem timeDimension_validation_iff (d : String) (g : Option Granularity)
    (dr : Option DateEntry) (cdr : Option (List DateEntry)) :
    ((∃ msg, TimeDimension.construct d g dr cdr = .error msg)
      ↔ (dr ≠ none ∧ cdr ≠ none)
        ∨ (∃ entries, cdr = some entries ∧
            ∃ e ∈ entries, ∃ ds, e = DateEntry.dates ds ∧ ds.length ≠ 2))
    ∧ (¬ ((dr ≠ none ∧ cdr ≠ none)
        ∨ (∃ entries, cdr = some entries ∧
            ∃ e ∈ entries, ∃ ds, e = DateEntry.dates ds ∧ ds.length ≠ 2)) →
        TimeDimension.construct d g dr cdr = .ok ⟨d, g, dr, cdr⟩) := by
  constructor
  · cases dr <;> cases cdr <;>
      simp [TimeDimension.construct, TimeDimension.validate_date_ranges,
        checkCompareEntries_error_iff, Except.map]
    case none.some entries =>
      cases h : checkCompareEntries entries with
      | ok u => simp [h, ← checkCompareEntries_error_iff, Except.map]
      | error m =>
        simp [h, Except.map]
        exact (checkCompareEntries_error_iff entries).mp ⟨m, h⟩
  · intro hP
    cases dr <;> cases cdr <;>
      simp_all [TimeDimension.construct, TimeDimension.validate_date_ranges,
        Except.map]
    case none.some entries =>
      cases h : checkCompareEntries entries with
      | ok u => simp [h, Except.map]
      | error m =>
        obtain ⟨e, he, ds, hds, hlen⟩ := (checkCompareEntries_error_iff entries).mp ⟨m, h⟩
        exact absurd (hP e he ds hds) hlen

/-- Claim C2 witness: a TimeDimension with only a dimension constructs
successfully, and the failure predicate is false there. -/
theorem timeDimension_validation_iff_witness :
    TimeDimension.construct "orders.created_at" none none none =
      .ok ⟨"orders.created_at", none, none, none⟩ :=
  (timeDimension_validation_iff "orders.created_at" none none none).2 (by simp)

/-- Claim C1: the classifier raises by this exact precedence, first match
wins: 403 → AuthorizationError; else 400 → RequestError; else a body
containing "Continue wait" (any status) → ContinueWaitError; else 502 →
BadGatewayError; else 500 → ServerError; else any status ≠ 200 →
UnexpectedResponseError; else (200) nothing.  In particular 403 with a
"Continue wait" body raises AuthorizationError and 500 with such a body
raises ContinueWaitError. -/
theorem errorHandler_precedence (s : Nat) (b : String) :
    (s = 403 → errorHandler s b = some (.authorization b))
    ∧ (s ≠ 403 → s = 400 → errorHandler s b = some (.request b))
    ∧ (s ≠ 403 → s ≠ 400 → containsContinueWait b = true →
        errorHandler s b = some .continueWait)
    ∧ (s ≠ 403 → s ≠ 400 → containsContinueWait b = false → s = 502 →
        errorHandler s b = some .badGateway)
    ∧ (s ≠ 403 → s ≠ 400 → containsContinueWait b = false → s ≠ 502 →
        s = 500 → errorHandler s b = some (.server b))
    ∧ (s ≠ 403 → s ≠ 400 → containsContinueWait b = false → s ≠ 502 →
        s ≠ 500 → s ≠ 200 → errorHandler s b = some (.unexpectedResponse b))
    ∧ (s ≠ 403 → s ≠ 400 → containsContinueWait b = false → s = 200 →
        errorHandler s b = none)
    ∧ (s = 403 → containsContinueWait b = true →
        errorHandler s b = some (.authorization b))
    ∧ (s = 500 → containsContinueWait b = true →
        errorHandler s b = some .continueWait) := by
  unfold errorHandler
  refine ⟨?_, ?_, ?_, ?_, ?_, ?_, ?_, ?_, ?_⟩ <;> intros <;> simp_all

/-- Claim C1 witness: a 403 response whose body contains "Continue wait"
still raises AuthorizationError. -/
theorem errorHandler_precedence_witness :
    errorHandler 403 "Continue wait" = some (.authorization "Continue wait") :=
  (errorHandler_precedence 403 "Continue wait").1 rfl

end CubeJS

namespace CubeJS

/-- Claim C10: the serialized payload always contains the keys "measures"
and "filters" (as empty arrays when the caller set nothing): their unset
defaults are empty lists, not the `None` that `exclude_none` omits. -/
theorem requestDump_list_defaults (r : CubeJSRequest) :
    (r.dump).getKey "measures" = some (.arr (r.measures.map .str))
    ∧ (r.dump).getKey "filters" = some (.arr (dumpFilterList r.filters))
    ∧ (emptyRequest.dump).getKey "measures" = some (.arr [])
    ∧ (emptyRequest.dump).getKey "filters" = some (.arr []) := by
  obtain ⟨ms, td, dims, segs, fs, ord, lim, off⟩ := r
  refine ⟨rfl, ?_, rfl, rfl⟩
  cases td <;> cases dims <;> cases segs <;> rfl

/-- Claim C3 counterexample: a request with every field left at its unset
default still serializes with the keys "measures" and "filters", so the
wire form does contain keys for fields left at their unset defaults. -/
theorem requestDump_default_keys_present :
    emptyRequest.measures = []
    ∧ emptyRequest.time_dimensions = none
    ∧ emptyRequest.dimensions = none
    ∧ emptyRequest.segments = none
    ∧ emptyRequest.filters = []
    ∧ emptyRequest.order = none
    ∧ emptyRequest.limit = none
    ∧ emptyRequest.offset = none
    ∧ emptyRequest.dump = Json.obj [("measures", Json.arr []), ("filters", Json.arr [])]
    ∧ "measures" ∈ (emptyRequest.dump).objKeys
    ∧ "filters" ∈ (emptyRequest.dump).objKeys := by
  refine ⟨rfl, rfl, rfl, rfl, rfl, rfl, rfl, rfl, rfl, ?_, ?_⟩ <;>
    simp [emptyRequest, CubeJSRequest.dump, Json.objKeys, optField]

/-- Helper: a key appears among an `optField`'s keys iff it is that field's
key and the field is set. -/
theorem optField_keys_mem (k key : String) (v : Option Json) :
    k ∈ (optField key v).map Prod.fst ↔ k = key ∧ v ≠ none := by
  cases v <;> simp [optField]

/-- Claim C3 (amended): the wire form contains no key for any None-default
optional field left unset, while the list-default fields measures and
filters always contribute their keys; every set field appears under its
documented camelCase alias (timeDimensions, dateRange, compareDateRange,
or, and), with enum values serialized to their string wire value. -/
theorem requestDump_spec (r : CubeJSRequest) :
    (∀ k, k ∈ (r.dump).objKeys ↔
      (k = "measures" ∨ k = "filters"
        ∨ (k = "timeDimensions" ∧ r.time_dimensions ≠ none)
        ∨ (k = "dimensions" ∧ r.dimensions ≠ none)
        ∨ (k = "segments" ∧ r.segments ≠ none)
        ∨ (k = "order" ∧ r.order ≠ none)
        ∨ (k = "limit" ∧ r.limit ≠ none)
        ∨ (k = "offset" ∧ r.offset ≠ none)))
    ∧ (∀ tds, r.time_dimensions = some tds →
        (r.dump).getKey "timeDimensions" = some (.arr (tds.map TimeDimension.dump)))
    ∧ (∀ td : TimeDimension, ∀ g, td.granularity = some g →
        (td.dump).getKey "granularity" = some (.str g.value))
    ∧ (∀ td : TimeDimension, ∀ e, td.date_range = some e →
        (td.dump).getKey "dateRange" = some e.toJson)
    ∧ (∀ td : TimeDimension, ∀ l, td.compare_date_range = some l →
        (td.dump).getKey "compareDateRange" = some (.arr (l.map DateEntry.toJson)))
    ∧ (∀ children, FilterOrLogical.dump (.logical (some children) none) =
        .obj [("or", .arr (dumpFilterList children))])
    ∧ (∀ children, FilterOrLogical.dump (.logical none (some children)) =
        .obj [("and", .arr (dumpFilterList children))])
    ∧ (∀ o, r.order = some o →
        (r.dump).getKey "order" =
          some (.obj (o.map fun p => (p.1, Json.str p.2.value)))) := by
  obtain ⟨ms, td, dims, segs, fs, ord, lim, off⟩ := r
  refine ⟨?_, ?_, ?_, ?_, ?_, ?_, ?_, ?_⟩
  · intro k
    simp only [CubeJSRequest.dump, Json.objKeys, List.map_append, List.mem_append,
      List.map_cons, List.map_nil, List.mem_cons, List.not_mem_nil, or_false,
      List.mem_singleton, optField_keys_mem, ne_eq, Option.map_eq_none']
    tauto
  · intro tds h
    subst h
    rfl
  · intro t g h
    obtain ⟨dim, gr, dr, cdr⟩ := t
    subst h
    rfl
  · intro t e h
    obtain ⟨dim, gr, dr, cdr⟩ := t
    subst h
    cases gr <;> rfl
  · intro t l h
    obtain ⟨dim, gr, dr, cdr⟩ := t
    subst h
    cases gr <;> cases dr <;> rfl
  · intro children
    simp [FilterOrLogical.dump, dumpLogicalField]
  · intro children
    simp [FilterOrLogical.dump, dumpLogicalField]
  · intro o h
    subst h
    cases td <;> cases dims <;> cases segs <;> rfl

/-- Claim C3 witness: a request with a time dimension set carries it under
"timeDimensions", and a granularity enum serializes to its string. -/
theorem requestDump_spec_witness :
    (CubeJSRequest.dump ⟨[], some [], none, none, [], none, none, none⟩).getKey
        "timeDimensions" = some (Json.arr [])
    ∧ (TimeDimension.dump ⟨"orders.created_at", some .day, none, none⟩).getKey
        "granularity" = some (Json.str "day") :=
  ⟨(requestDump_spec ⟨[], some [], none, none, [], none, none, none⟩).2.1 [] rfl,
   (requestDump_spec emptyRequest).2.2.1 ⟨"orders.created_at", some .day, none, none⟩
     .day rfl⟩

end CubeJS

namespace CubeJS

/-- Helper: a retryable failure with retries remaining leads to the next
attempt, adding one transport call. -/
theorem retryGo_step (t : Nat → HttpResponse) (i rem : Nat) (e : ClientError)
    (he : attemptOnce (t i) = .error e) (hr : e.isRetryable = true) :
    retryGo t i (rem + 1) = ((retryGo t (i + 1) rem).1, (retryGo t (i + 1) rem).2 + 1) := by
  simp [retryGo, he, hr]

/-- Helper: with no retries remaining, any failure propagates unchanged. -/
theorem retryGo_exhausted (t : Nat → HttpResponse) (i : Nat) (e : ClientError)
    (he : attemptOnce (t i) = .error e) :
    retryGo t i 0 = (.error e, 1) := by
  simp [retryGo, he]

/-- Helper: a non-retryable failure propagates unchanged at once. -/
theorem retryGo_nonretryable (t : Nat → HttpResponse) (i rl : Nat) (e : ClientError)
    (he : attemptOnce (t i) = .error e) (hr : e.isRetryable = false) :
    retryGo t i rl = (.error e, 1) := by
  cases rl <;> simp [retryGo, he, hr]

/-- Helper: a successful attempt returns at once. -/
theorem retryGo_ok (t : Nat → HttpResponse) (i rl : Nat) (r : CubeJSResponse)
    (ho : attemptOnce (t i) = .ok r) :
    retryGo t i rl = (.ok r, 1) := by
  cases rl <;> simp [retryGo, ho]

/-- Claim C4: when every one of 5 consecutive attempts raises a retryable
error, the retry-wrapped fetch makes exactly 5 transport calls (no 6th)
and re-raises the 5th attempt's retryable error unchanged. -/
theorem retry_exhaustion (t : Nat → HttpResponse) (e : ClientError)
    (h : ∀ i, i < 4 → ∃ ei, attemptOnce (t i) = .error ei ∧ ei.isRetryable = true)
    (h4 : attemptOnce (t 4) = .error e) (_he : e.isRetryable = true) :
    retryFetch t = (.error e, 5) := by
  obtain ⟨e0, he0, hr0⟩ := h 0 (by norm_num)
  obtain ⟨e1, he1, hr1⟩ := h 1 (by norm_num)
  obtain ⟨e2, he2, hr2⟩ := h 2 (by norm_num)
  obtain ⟨e3, he3, hr3⟩ := h 3 (by norm_num)
  have s0 := retryGo_step t 0 3 e0 he0 hr0
  have s1 := retryGo_step t 1 2 e1 he1 hr1
  have s2 := retryGo_step t 2 1 e2 he2 hr2
  have s3 := retryGo_step t 3 0 e3 he3 hr3
  have s4 := retryGo_exhausted t 4 e h4
  simp [retryFetch, maxAttempts, s0, s1, s2, s3, s4]

/-- Claim C4 witness: a transport answering 502 with body "x" forever
exhausts after exactly 5 calls, raising BadGatewayError. -/
theorem retry_exhaustion_witness :
    retryFetch (fun _ => ⟨502, "x", none⟩) = (.error .badGateway, 5) :=
  retry_exhaustion (fun _ => ⟨502, "x", none⟩) .badGateway
    (fun _ _ => ⟨.badGateway, rfl, rfl⟩) rfl rfl

/-- Claim C5: when the first 4 attempts raise retryable errors and the 5th
succeeds, the retry-wrapped fetch returns the parsed success response
and makes exactly 5 transport calls. -/
theorem retry_eventual_success (t : Nat → HttpResponse) (r : CubeJSResponse)
    (h : ∀ i, i < 4 → ∃ ei, attemptOnce (t i) = .error ei ∧ ei.isRetryable = true)
    (h4 : attemptOnce (t 4) = .ok r) :
    retryFetch t = (.ok r, 5) := by
  obtain ⟨e0, he0, hr0⟩ := h 0 (by norm_num)
  obtain ⟨e1, he1, hr1⟩ := h 1 (by norm_num)
  obtain ⟨e2, he2, hr2⟩ := h 2 (by norm_num)
  obtain ⟨e3, he3, hr3⟩ := h 3 (by norm_num)
  have s0 := retryGo_step t 0 3 e0 he0 hr0
  have s1 := retryGo_step t 1 2 e1 he1 hr1
  have s2 := retryGo_step t 2 1 e2 he2 hr2
  have s3 := retryGo_step t 3 0 e3 he3 hr3
  have s4 := retryGo_ok t 4 0 r h4
  simp [retryFetch, maxAttempts, s0, s1, s2, s3, s4]

/-- Claim C5 witness: 4 times 502/"x" then the valid 200 body yields the
parsed single-row response after exactly 5 calls. -/
theorem retry_eventual_success_witness :
    retryFetch mockTransport = (.ok ⟨[successRow]⟩, 5) :=
  retry_eventual_success mockTransport ⟨[successRow]⟩
    (fun i hi => ⟨.badGateway, by simp only [mockTransport, if_pos hi]; rfl, rfl⟩)
    (by simp only [mockTransport]; rfl)

/-- Claim C6: exactly ContinueWaitError and BadGatewayError are retryable,
and any non-retryable error from the first attempt propagates to the
caller immediately, after a single transport call. -/
theorem nonretryable_propagates (t : Nat → HttpResponse) (e : ClientError)
    (h0 : attemptOnce (t 0) = .error e) (hn : e.isRetryable = false) :
    retryFetch t = (.error e, 1)
    ∧ ∀ e2 : ClientError, e2.isRetryable = true ↔ (e2 = .continueWait ∨ e2 = .badGateway) := by
  refine ⟨retryGo_nonretryable t 0 _ e h0 hn, fun e2 => ?_⟩
  cases e2 <;> simp [ClientError.isRetryable]

/-- Claim C6 witness: a 403 response propagates AuthorizationError after a
single call. -/
theorem nonretryable_propagates_witness :
    retryFetch (fun _ => ⟨403, "denied", none⟩) = (.error (.authorization "denied"), 1) :=
  (nonretryable_propagates (fun _ => ⟨403, "denied", none⟩) (.authorization "denied")
    rfl rfl).1

/-- Claim C7: the first wait is 1 second, every wait lies in [1, 30]
seconds, and each wait doubles the previous one while the doubled value
stays under the 30-second cap. -/
theorem backoff_bounds :
    backoffWait 1 = 1
    ∧ (∀ n, 1 ≤ backoffWait (n + 1) ∧ backoffWait (n + 1) ≤ 30)
    ∧ (∀ n, 2 ^ (n + 1) ≤ 30 → backoffWait (n + 2) = 2 * backoffWait (n + 1)) := by
  refine ⟨rfl, fun n => ⟨le_max_left 1 _, max_le (by norm_num) (min_le_right _ _)⟩,
    fun n h => ?_⟩
  have h1 : 2 ^ n ≤ 30 := le_trans (Nat.pow_le_pow_right (by norm_num) (Nat.le_succ n)) h
  show max 1 (min (2 ^ (n + 1)) 30) = 2 * max 1 (min (2 ^ n) 30)
  rw [min_eq_left h, min_eq_left h1, max_eq_right Nat.one_le_two_pow,
    max_eq_right Nat.one_le_two_pow, pow_succ]
  ring

/-- Claim C7 witness: the concrete schedule starts 1, 2, 4, stays in
bounds, and doubles below the cap. -/
theorem backoff_bounds_witness :
    backoffWait 1 = 1
    ∧ (1 ≤ backoffWait 3 ∧ backoffWait 3 ≤ 30)
    ∧ backoffWait 4 = 2 * backoffWait 3 :=
  ⟨backoff_bounds.1, backoff_bounds.2.1 2, backoff_bounds.2.2 2 (by norm_num)⟩

/-- Claim C8: a 200 response with body
`{"data": [{"a.b": "2023-01-01", "a.c": 42}]}` parses to exactly one
row mapping "a.b" to the string "2023-01-01" and "a.c" to the integer
42, with no type coercion. -/
theorem parse_success_single_row :
    attemptOnce ⟨200, successBody, some successJson⟩ = .ok ⟨[successRow]⟩
    ∧ successRow = [("a.b", CellValue.str "2023-01-01"), ("a.c", CellValue.int 42)] :=
  ⟨rfl, rfl⟩

/-- Claim C9: every non-retryable classifier error (403, 400, 500 without
"Continue wait", and any other non-200 status not matching an earlier
check) carries the response body text verbatim as its message; in
particular a 400 response raises RequestError whose message is exactly
the body. -/
theorem error_message_verbatim (s : Nat) (b : String) :
    (errorHandler 403 b = some (.authorization b)
      ∧ (ClientError.authorization b).message = some b)
    ∧ (errorHandler 400 b = some (.request b)
      ∧ (ClientError.request b).message = some b)
    ∧ (containsContinueWait b = false →
        errorHandler 500 b = some (.server b)
          ∧ (ClientError.server b).message = some b)
    ∧ (containsContinueWait b = false → s ≠ 200 → s ≠ 403 → s ≠ 400 → s ≠ 502 →
        s ≠ 500 →
        errorHandler s b = some (.unexpectedResponse b)
          ∧ (ClientError.unexpectedResponse b).message = some b) := by
  refine ⟨⟨?_, rfl⟩, ⟨?_, rfl⟩, fun h => ⟨?_, rfl⟩,
    fun h h200 h403 h400 h502 h500 => ⟨?_, rfl⟩⟩ <;>
    simp [errorHandler, *]

/-- Claim C9 witness: a 418 response with body "teapot" raises
UnexpectedResponseError carrying "teapot" verbatim. -/
theorem error_message_verbatim_witness :
    errorHandler 418 "teapot" = some (.unexpectedResponse "teapot")
    ∧ (ClientError.unexpectedResponse "teapot").message = some "teapot" :=
  (error_message_verbatim 418 "teapot").2.2.2 (by decide) (by decide) (by decide)
    (by decide) (by decide) (by decide)

end CubeJS
